import Mathlib

/-!
Verification development for the juris-nexus-poc repository.

The repository ships the presentation layer (`app/static/js/main.js`) together
with a specification of the backend core (dual-tier orchestrator, model
clients, prompt template store/selector, learning recorder).  The backend
sources are not part of the checkout, so the backend is modelled from the
specification text; the presentation-layer functions are embedded directly
from `main.js`.
-/

namespace JurisNexus

/-! ## Data model (spec §3) -/

/-- Modelled from the spec: the five legal task types of an AnalysisTask
(`task_type ∈ contract_risk, consultation, drafting, litigation, research`).
The implementation module `legal_tasks/` is not in the checkout. -/
inductive TaskType where
  | contract_risk
  | consultation
  | drafting
  | litigation
  | research
deriving DecidableEq, BEq

/-- Modelled from the spec: the document_profile carried by an AnalysisTask
(language, length, detected clause count). -/
structure DocumentProfile where
  language : String
  length : Nat
  clauseCount : Nat
deriving DecidableEq, BEq

/-- Modelled from the spec: an AnalysisTask, created per incoming request and
immutable once dispatched. -/
structure AnalysisTask where
  task_id : Nat
  task_type : TaskType
  input_text : String
  document_profile : DocumentProfile
deriving DecidableEq, BEq

/-- Modelled from the spec: the status of one model invocation
(`status ∈ ok, timeout, error, mocked`). -/
inductive CallStatus where
  | ok
  | timeout
  | error
  | mocked
deriving DecidableEq, BEq

/-- Modelled from the spec: a ModelCallRecord, one per model invocation,
append-only.  `response_text` carries the response, or the error reason when
`status = error`. -/
structure ModelCallRecord where
  tier : Nat
  template_id : Nat
  prompt_text : String
  response_text : String
  latency : Nat
  status : CallStatus
deriving DecidableEq, BEq

/-- Modelled from the spec: a risk finding, "each tagged with a severity and a
recommendation"; the clause endpoint of the presentation layer additionally
carries a `risk_description` and an optional `legal_basis`
(`main.js` `loadClauseContent`). -/
structure Risk where
  severity : String
  risk_description : String
  legal_basis : Option String
  recommendation : String
deriving DecidableEq, BEq

/-- Modelled from the spec: one clause-keyed entry of the structured merged
output for contract_risk ("ordered list of risk findings per clause"); the
`mocked` flag is the distinguishing tag required for mock-mode output. -/
structure ClauseEntry where
  clause_id : Nat
  findings : List Risk
  mocked : Bool
deriving DecidableEq, BEq

/-- Modelled from the spec: the merged_output of a PipelineResult —
"structured risk findings or consultation answer"; `failure` is the empty
output of a failed run. -/
inductive MergedOutput where
  | risks (entries : List ClauseEntry)
  | answer (text : String) (mocked : Bool)
  | failure
deriving DecidableEq, BEq

/-- Modelled from the spec: the four pipeline outcomes. -/
inductive Outcome where
  | success
  | partial_tier2_failure
  | full_mock
  | failed
deriving DecidableEq, BEq

/-- Modelled from the spec: a PipelineResult, created once per task and
immutable after finalization. -/
structure PipelineResult where
  task_id : Nat
  tier1_record : ModelCallRecord
  tier2_record : Option ModelCallRecord
  merged_output : MergedOutput
  outcome : Outcome
deriving DecidableEq, BEq

/-- Modelled from the spec: a versioned PromptTemplate; versions are never
mutated in place except for the retirement marker `retired_at`. -/
structure PromptTemplate where
  template_id : Nat
  task_type : TaskType
  tier : Nat
  version : Nat
  body : String
  created_at : Nat
  retired_at : Option Nat
deriving DecidableEq, BEq

/-- Modelled from the spec: the Prompt Template Store, an append-capable,
queryable-by-key collection of versioned templates
(`prompt_engine/prompt_manager.py` is not in the checkout). -/
def TemplateStore : Type := List PromptTemplate

/-- Modelled from the spec: a FeedbackRecord with `rating (1–5)`, keyed to a
pipeline run via `task_id`. -/
structure FeedbackRecord where
  feedback_id : Nat
  task_id : Nat
  rating : Nat
  comments : String
  reviewer_id : Nat
  created_at : Nat
deriving DecidableEq, BEq

/-- Modelled from the spec: one Learning Recorder entry —
`record(PipelineResult, all ModelCallRecords)`
(`learning_recorder.py` is not in the checkout). -/
structure LearningEntry where
  result : PipelineResult
  records : List ModelCallRecord
deriving DecidableEq, BEq

/-! ## Template Store operations (spec §3 invariants, §4.4) -/

/-- Modelled from the spec: fetch a template version by its `template_id`
from the queryable-by-key store. -/
def fetchById (s : TemplateStore) (id : Nat) : Option PromptTemplate :=
  List.find? (fun t => t.template_id == id) s

/-- Modelled from the spec: retiring a template version marks it with a
retirement timestamp; retired templates are retained, not deleted, and no
other field is altered (append-only lineage). -/
def retire (s : TemplateStore) (id : Nat) (now : Nat) : TemplateStore :=
  List.map (fun t =>
    if t.template_id == id then
      { t with retired_at := some now }
    else t) s

/-! ## Template Selector (spec §4.3) -/

/-- Modelled from the spec: the task ids of the runs whose tier-`tier` model
call used template `tid`, read from the Learning Recorder history. -/
def tasksUsingTemplate (log : List LearningEntry) (tier tid : Nat) : List Nat :=
  (log.filter (fun e =>
    (e.records.filter (fun r => r.tier == tier)).any
      (fun r => r.template_id == tid))).map (fun e => e.result.task_id)

/-- Modelled from the spec: the feedback ratings attributable to template
`tid` at tier `tier` — ratings of FeedbackRecords whose `task_id` belongs to a
recorded run that used the template at that tier. -/
def ratingsOf (log : List LearningEntry) (fb : List FeedbackRecord)
    (tier tid : Nat) : List Nat :=
  (fb.filter (fun r => (tasksUsingTemplate log tier tid).contains r.task_id)).map
    (fun r => r.rating)

/-- Modelled from the spec: the fixed baseline template used on cold start,
when no feedback history exists yet. -/
def baselineTemplate (tt : TaskType) (tier : Nat) : PromptTemplate :=
  { template_id := 0
    task_type := tt
    tier := tier
    version := 0
    body := "baseline template body"
    created_at := 0
    retired_at := none }

/-- Modelled from the spec: candidate templates for selection — the active
(non-retired) templates of the given (task_type, tier) pair. -/
def activeCandidates (s : TemplateStore) (tt : TaskType) (tier : Nat) :
    List PromptTemplate :=
  List.filter (fun t =>
    t.task_type == tt && t.tier == tier && t.retired_at == none) s

/-- Modelled from the spec: `t` has a strictly higher rolling mean feedback
rating than `best`, or the same mean with a more recent version (the tie
break).  Means `sum/len` are compared by cross multiplication, exactly. -/
def outranks (log : List LearningEntry) (fb : List FeedbackRecord)
    (tier : Nat) (t best : PromptTemplate) : Bool :=
  let rt := ratingsOf log fb tier t.template_id
  let rb := ratingsOf log fb tier best.template_id
  rt.sum * rb.length > rb.sum * rt.length ||
    (rt.sum * rb.length == rb.sum * rt.length && t.version > best.version)

/-- Modelled from the spec: Template Selector default policy — pick the active
template with the highest rolling mean feedback rating for (task_type, tier),
ties broken by most-recent version, falling back to the fixed baseline when no
feedback history exists yet (missing module `template_selector.py`).  Pure
function of the store and histories: no randomness.  The document profile is
accepted per the contract `select(task_type, tier, document_profile)`; the
default policy does not consult it. -/
def select (s : TemplateStore) (log : List LearningEntry)
    (fb : List FeedbackRecord) (tt : TaskType) (tier : Nat)
    (_profile : DocumentProfile) : PromptTemplate :=
  let rated := (activeCandidates s tt tier).filter
    (fun t => !(ratingsOf log fb tier t.template_id).isEmpty)
  match rated with
  | [] => baselineTemplate tt tier
  | c :: cs => cs.foldl (fun best t => if outranks log fb tier t best then t else best) c

/-- Modelled from the spec: the shared read-mostly core state a selection call
sees — the Template Store, the Learning Recorder history and the
FeedbackRecord history. -/
structure CoreState where
  store : TemplateStore
  learningLog : List LearningEntry
  feedback : List FeedbackRecord

/-- Modelled from the spec: one call to the Template Selector against the core
state.  Selection is read-only: it returns the chosen template and leaves the
state unchanged. -/
def selectCall (st : CoreState) (tt : TaskType) (tier : Nat)
    (profile : DocumentProfile) : PromptTemplate × CoreState :=
  (select st.store st.learningLog st.feedback tt tier profile, st)

/-! ## Model Client (spec §4.1) -/

/-- Modelled from the spec: the overall result a real (non-simulated) model
backend yields for one orchestrated call, after the client has absorbed
retries internally: a successful response with its latency, a terminal
timeout, or a terminal error carrying the last failure reason. -/
inductive RealResult where
  | ok (response : String) (latency : Nat)
  | timeout
  | error (reason : String)
deriving DecidableEq, BEq

/-- Modelled from the spec: the behaviour of one tier's Model Client — either
simulated mode (explicit flag or forced by consecutive failures), or a real
backend with a given post-retry result. -/
inductive ClientBehavior where
  | mock
  | real (r : RealResult)
deriving DecidableEq, BEq

/-- Modelled from the spec: the deterministic, clearly-labeled placeholder
response synthesized in simulated mode. -/
def mockResponse (tier : Nat) : String :=
  "[SIMULATED] placeholder analysis from tier " ++ toString tier

/-- Modelled from the spec: `invoke(prompt, options) → ModelCallRecord`.
On exhausting retries the client does not raise: it returns a record with
`status = error` carrying the last failure reason; past the timeout bound it
returns `status = timeout`; in simulated mode it synthesizes the placeholder
with `status = mocked` without calling the network. -/
def invoke (b : ClientBehavior) (tier tid : Nat) (prompt : String)
    (timeout_ms : Nat) : ModelCallRecord :=
  match b with
  | .mock =>
      { tier := tier, template_id := tid, prompt_text := prompt
        response_text := mockResponse tier, latency := 0, status := .mocked }
  | .real (.ok resp lat) =>
      { tier := tier, template_id := tid, prompt_text := prompt
        response_text := resp, latency := lat, status := .ok }
  | .real .timeout =>
      { tier := tier, template_id := tid, prompt_text := prompt
        response_text := "", latency := timeout_ms, status := .timeout }
  | .real (.error reason) =>
      { tier := tier, template_id := tid, prompt_text := prompt
        response_text := reason, latency := 0, status := .error }

/-! ## Merging (spec §4.2, MERGING stage) -/

/-- Modelled from the spec: structured extraction of one clause's risk
findings from the free-form analysis text.  The spec fixes only the shape —
each finding carries a severity and a recommendation — so the model extracts
one finding per clause whose fields are drawn deterministically from the
text. -/
def extractFindings (text : String) (clauseIdx : Nat) : List Risk :=
  [{ severity := "MEDIUM"
     risk_description := text
     legal_basis := none
     recommendation := "review clause " ++ toString clauseIdx }]

/-- Modelled from the spec: the MERGING stage — turn the free-form tier-2 text
(or tier-1 text, if tier-2 was skipped) into the task-type-specific structured
shape: for contract_risk, an ordered list of clause-keyed risk-finding
entries, one per detected clause; otherwise a consultation-style answer.  The
`mocked` flag tags output whose source record was simulated. -/
def extractOutput (task : AnalysisTask) (text : String) (mocked : Bool) :
    MergedOutput :=
  match task.task_type with
  | .contract_risk =>
      .risks ((List.range task.document_profile.clauseCount).map (fun i =>
        { clause_id := i + 1
          findings := extractFindings text (i + 1)
          mocked := mocked }))
  | _ => .answer text mocked

/-- Modelled from the spec: is every produced entry of a merged output tagged
as mocked (the distinguishability requirement of §7)? -/
def outputAllMocked : MergedOutput → Bool
  | .risks entries => entries.all (fun e => e.mocked)
  | .answer _ mocked => mocked
  | .failure => true

/-! ## Dual-Tier Orchestrator (spec §4.2) -/

/-- Modelled from the spec: the environment of one pipeline run — the two
tiers' Model Client behaviours, the per-call timeout configuration and the
shared core state the Template Selector consults. -/
structure Env where
  tier1 : ClientBehavior
  tier2 : ClientBehavior
  timeout_ms : Nat
  store : TemplateStore
  feedback : List FeedbackRecord

/-- Modelled from the spec: the tier-1 prompt — the selected template's body
instantiated with the task's input text. -/
def tier1Prompt (t : PromptTemplate) (task : AnalysisTask) : String :=
  t.body ++ " | document: " ++ task.input_text

/-- Modelled from the spec: the tier-2 prompt — the tier-2 template plus the
tier-1 output to critique. -/
def tier2Prompt (t : PromptTemplate) (task : AnalysisTask)
    (tier1_output : String) : String :=
  t.body ++ " | document: " ++ task.input_text ++ " | draft: " ++ tier1_output

/-- Modelled from the spec: the Dual-Tier Orchestrator state machine
`DRAFTING → CRITIQUING → MERGING → FINALIZED` with terminal `FAILED`
(missing module `dual_ai_engine.py`):

* DRAFTING invokes tier 1 with a template selected for (task_type, 1);
  `status = error` or `status = timeout` transitions directly to FAILED with
  `outcome = failed`;
* CRITIQUING invokes tier 2 on the tier-1 output; tier-2 failure falls back
  to the tier-1 output unrefined with `outcome = partial_tier2_failure`;
* MERGING extracts the structured shape from the tier-2 text (or the tier-1
  text when tier-2 failed);
* `outcome = full_mock` whenever both tiers ran in simulated mode;
* at finalization, the run is written to the Learning Recorder exactly once,
  regardless of outcome.

Returns the PipelineResult, the ModelCallRecords emitted, and the Learning
Recorder log extended with this run's entry. -/
def runPipeline (env : Env) (task : AnalysisTask)
    (log : List LearningEntry) :
    PipelineResult × List ModelCallRecord × List LearningEntry :=
  let t1 := select env.store log env.feedback task.task_type 1
    task.document_profile
  let r1 := invoke env.tier1 1 t1.template_id (tier1Prompt t1 task)
    env.timeout_ms
  if r1.status == .error || r1.status == .timeout then
    let res : PipelineResult :=
      { task_id := task.task_id, tier1_record := r1, tier2_record := none
        merged_output := .failure, outcome := .failed }
    (res, [r1], log ++ [{ result := res, records := [r1] }])
  else
    let t2 := select env.store log env.feedback task.task_type 2
      task.document_profile
    let r2 := invoke env.tier2 2 t2.template_id
      (tier2Prompt t2 task r1.response_text) env.timeout_ms
    if r2.status == .error || r2.status == .timeout then
      let merged := extractOutput task r1.response_text (r1.status == .mocked)
      let res : PipelineResult :=
        { task_id := task.task_id, tier1_record := r1, tier2_record := some r2
          merged_output := merged, outcome := .partial_tier2_failure }
      (res, [r1, r2], log ++ [{ result := res, records := [r1, r2] }])
    else
      let merged := extractOutput task r2.response_text (r2.status == .mocked)
      let res : PipelineResult :=
        { task_id := task.task_id, tier1_record := r1, tier2_record := some r2
          merged_output := merged
          outcome := if r1.status == .mocked && r2.status == .mocked then
            .full_mock else .success }
      (res, [r1, r2], log ++ [{ result := res, records := [r1, r2] }])

/-! ## Presentation layer, embedded from `app/static/js/main.js` -/

/-- One star element of the rating widget: its `data-value` attribute (a DOM
attribute, hence a string) and its text content, which is either the filled
star character or the hollow one. -/
structure Star where
  dataValue : String
  symbol : Char
deriving DecidableEq, BEq

/-- Embeds `generateStars(count)` of `main.js`: for `i` from 1 to 5, emit a
star span with `data-value` `i` whose text is filled exactly when
`i <= count`. -/
def generateStars (count : Nat) : List Star :=
  (List.range 5).map (fun j =>
    { dataValue := toString (j + 1)
      symbol := if j + 1 ≤ count then '★' else '☆' })

/-- Lexicographic comparison of character lists, modelling the JavaScript
relational comparison of two strings (code-unit by code-unit; identical to
code-point order on these BMP digit strings). -/
def lexLe : List Char → List Char → Bool
  | [], _ => true
  | _ :: _, [] => false
  | a :: as, b :: bs =>
      if a < b then true else if b < a then false else lexLe as bs

/-- The JavaScript `<=` applied to two strings, as in `initRating`'s
`starValue <= value` (both operands come from `getAttribute`, so both are
strings). -/
def jsStrLe (a b : String) : Bool := lexLe a.data b.data

/-- Embeds the click handler of `initRating` in `main.js`: clicking the star
whose `data-value` is `v` rewrites every star's text to filled exactly when
its own `data-value` compares `<=` to `v` as strings. -/
def clickStar (stars : List Star) (v : String) : List Star :=
  stars.map (fun s =>
    { s with symbol := if jsStrLe s.dataValue v then '★' else '☆' })

/-- One rendered risk entry of the clause content area, embedded from the
`data.risks.map(...)` template of `loadClauseContent` in `main.js`: the badge
class, the severity label, the title, the optional legal-basis paragraph and
the recommendation paragraph. -/
structure RiskItemHtml where
  badge_class : String
  severity_label : String
  title : String
  legal_basis_html : String
  recommendation_text : String
deriving DecidableEq, BEq

/-- Embeds the per-risk template literal of `loadClauseContent`. -/
def renderRiskItem (r : Risk) : RiskItemHtml :=
  { badge_class := "badge badge-" ++ r.severity.toLower
    severity_label := r.severity
    title := r.risk_description
    legal_basis_html :=
      match r.legal_basis with
      | some lb => "<p><strong>法律依據:</strong> " ++ lb ++ "</p>"
      | none => ""
    recommendation_text := r.recommendation }

/-- Embeds `data.risks.map(risk => ...)` of `loadClauseContent`: the risk list
is rendered in the order received. -/
def renderRiskList (risks : List Risk) : List RiskItemHtml :=
  risks.map renderRiskItem

/-- The fields of a selected file the upload page reads: `name`, `size` (in
bytes) and MIME `type`. -/
structure FileDesc where
  name : String
  size : Nat
  mimeType : String
deriving DecidableEq, BEq

/-- The content of the `#file-info` element: either whatever markup it held
before `updateFileInfo` ran, or the rendered file-details block.  The size
string `(file.size/1024/1024).toFixed(2)` is presentation-only floating-point
formatting; the raw byte size is carried instead. -/
inductive FileInfoHtml where
  | original (raw : String)
  | details (icon : String) (fileName : String) (sizeBytes : Nat)
      (submitBtn : Bool)
deriving DecidableEq, BEq

/-- The `#file-info` element: its innerHTML and whether it carries the
`hidden` class. -/
structure FileInfoElement where
  content : FileInfoHtml
  hidden : Bool
deriving DecidableEq, BEq

/-- The page state `updateFileInfo` touches: the `#file-info` element (absent
on pages without it) and the notifications shown so far, as
(message, type) pairs in creation order. -/
structure PageState where
  fileInfo : Option FileInfoElement
  notifications : List (String × String)
deriving DecidableEq, BEq

/-- The `allowedTypes` array of `updateFileInfo` in `main.js`. -/
def allowedTypes : List String :=
  ["application/pdf",
   "application/vnd.openxmlformats-officedocument.wordprocessingml.document"]

/-- Is `pat` a prefix of `cs`?  Helper for the substring check below. -/
def prefixOfChars : List Char → List Char → Bool
  | [], _ => true
  | _ :: _, [] => false
  | a :: as, b :: bs => a == b && prefixOfChars as bs

/-- Does `cs` contain `pat` as a contiguous substring? -/
def containsSub (pat : List Char) : List Char → Bool
  | [] => prefixOfChars pat []
  | c :: cs => prefixOfChars pat (c :: cs) || containsSub pat cs

/-- The JavaScript `String.prototype.includes`, as in
`file.type.includes('pdf')`. -/
def strIncludes (s pat : String) : Bool := containsSub pat.data s.data

/-- Embeds `showNotification(message, type)`'s user-visible effect on the
notification list: a new (message, type) notification is appended. -/
def pushNotification (st : PageState) (message ty : String) : PageState :=
  { st with notifications := st.notifications ++ [(message, ty)] }

/-- Embeds `updateFileInfo(file)` of `main.js`: return untouched when the
`#file-info` element is absent; for a MIME type outside `allowedTypes`, show
the error notification and return, leaving the element untouched; otherwise
render the file details with the submit button and unhide the element. -/
def updateFileInfo (st : PageState) (file : FileDesc) : PageState :=
  match st.fileInfo with
  | none => st
  | some _ =>
      if !(allowedTypes.contains file.mimeType) then
        pushNotification st "僅支援PDF和DOCX格式文件" "error"
      else
        let fileIcon := if strIncludes file.mimeType "pdf" then "📄" else "📝"
        let el : FileInfoElement :=
          { content := .details fileIcon file.name file.size true
            hidden := false }
        { st with fileInfo := some el }

/-- The kinds of timers `showNotification` schedules: the 10 ms show-class
animation, and the 5000 ms auto-close that starts the removal. -/
inductive TimerKind where
  | showAnim
  | autoClose
deriving DecidableEq, BEq

/-- A scheduled timer: its delay in milliseconds from creation, the
notification it targets, and its kind. -/
structure NotifTimer where
  delayMs : Nat
  notifId : Nat
  kind : TimerKind
deriving DecidableEq, BEq

/-- The notification container with its scheduled timers; notifications are
identified by id. -/
structure NotifState where
  children : List Nat
  timers : List NotifTimer
deriving DecidableEq, BEq

/-- Embeds the tail of `showNotification` in `main.js`: the new notification
is appended to the container, the show-animation fires after 10 ms, and the
auto-close sequence is scheduled 5000 ms after creation. -/
def showNotificationStep (st : NotifState) (nid : Nat) : NotifState :=
  { children := st.children ++ [nid]
    timers := st.timers ++
      [{ delayMs := 10, notifId := nid, kind := .showAnim },
       { delayMs := 5000, notifId := nid, kind := .autoClose }] }

/-- The DOM `container.removeChild(notification)`: removes the child, or
throws `NotFoundError` when the node is not a child of the container. -/
def removeChild (children : List Nat) (nid : Nat) :
    Except String (List Nat) :=
  if children.contains nid then .ok (children.erase nid)
  else .error "NotFoundError"

/-- Embeds the delayed removal branch of `showNotification`'s auto-close:
`if (container.contains(notification)) container.removeChild(notification)` —
the removal is guarded by the containment check, so an already-removed
notification is simply skipped. -/
def autoCloseRemoval (children : List Nat) (nid : Nat) :
    Except String (List Nat) :=
  if children.contains nid then removeChild children nid
  else .ok children

/-- Embeds the close-button handler of `showNotification`, which calls
`container.removeChild(notification)` without a containment guard. -/
def closeButtonRemoval (children : List Nat) (nid : Nat) :
    Except String (List Nat) :=
  removeChild children nid

/-! ## Auxiliary definitions used by the verification -/

/-- A tier's Model Client behaviour counts as failing when the (post-retry)
real call ends in timeout or error; simulated mode and a successful real call
do not fail. -/
def clientFails : ClientBehavior → Bool
  | .real .timeout => true
  | .real (.error _) => true
  | _ => false

/-- The per-template action of `retire`: stamp the retirement time on the
matching version, leave every other version untouched. -/
def retireOne (id now : Nat) (t : PromptTemplate) : PromptTemplate :=
  if t.template_id == id then { t with retired_at := some now } else t

/-- A sample document profile: a 10-clause Chinese-language contract. -/
def sampleProfile : DocumentProfile :=
  { language := "zh-TW", length := 5000, clauseCount := 10 }

/-- A sample contract_risk AnalysisTask over the sample profile. -/
def sampleTask : AnalysisTask :=
  { task_id := 7
    task_type := .contract_risk
    input_text := "本合約由甲方與乙方簽訂"
    document_profile := sampleProfile }

/-- A sample active tier-1 template. -/
def sampleTemplate : PromptTemplate :=
  { template_id := 42
    task_type := .contract_risk
    tier := 1
    version := 1
    body := "analyse the following contract for risks"
    created_at := 100
    retired_at := none }

/-- A sample core state holding the sample template and one feedback record
tied to a recorded run that used it. -/
def sampleCore : CoreState :=
  { store := [sampleTemplate]
    learningLog :=
      [{ result :=
           { task_id := 7
             tier1_record :=
               { tier := 1, template_id := 42, prompt_text := "p"
                 response_text := "draft", latency := 3, status := .ok }
             tier2_record := none
             merged_output := .answer "draft" false
             outcome := .partial_tier2_failure }
         records :=
           [{ tier := 1, template_id := 42, prompt_text := "p"
              response_text := "draft", latency := 3, status := .ok }] }]
    feedback :=
      [{ feedback_id := 1, task_id := 7, rating := 4
         comments := "adequate", reviewer_id := 9, created_at := 200 }] }

/-- A pipeline environment with both tiers in simulated mode. -/
def mockEnv : Env :=
  { tier1 := .mock, tier2 := .mock, timeout_ms := 30000
    store := [sampleTemplate], feedback := [] }

/-- A pipeline environment whose tier-1 backend fails with an error. -/
def failEnv : Env :=
  { tier1 := .real (.error "connection refused"), tier2 := .mock
    timeout_ms := 30000, store := [sampleTemplate], feedback := [] }

/-- A pipeline environment where tier 1 succeeds and tier 2 times out. -/
def partialEnv : Env :=
  { tier1 := .real (.ok "初步分析草稿" 120), tier2 := .real .timeout
    timeout_ms := 30000, store := [sampleTemplate], feedback := [] }

/-- A pipeline environment where both real backends succeed. -/
def liveEnv : Env :=
  { tier1 := .real (.ok "初步分析草稿" 120)
    tier2 := .real (.ok "精煉後的分析" 340)
    timeout_ms := 30000, store := [sampleTemplate], feedback := [] }

/-! ## Theorems -/

/-- `retireOne` never changes a template's id. -/
theorem retireOne_template_id (id now : Nat) (t : PromptTemplate) :
    (retireOne id now t).template_id = t.template_id := by
  unfold retireOne
  split <;> rfl

/-- `retireOne` never changes a template's body. -/
theorem retireOne_body (id now : Nat) (t : PromptTemplate) :
    (retireOne id now t).body = t.body := by
  unfold retireOne
  split <;> rfl

/-- `retire` is the per-template retirement map. -/
theorem retire_eq_map (s : TemplateStore) (id now : Nat) :
    retire s id now = List.map (retireOne id now) s := rfl

/-- Fetching from a retired store finds the retired image of whatever the
original fetch found. -/
theorem fetchById_retire (s : TemplateStore) (id now qid : Nat) :
    fetchById (retire s id now) qid
      = (fetchById s qid).map (retireOne id now) := by
  rw [retire_eq_map]
  induction s with
  | nil => rfl
  | cons t ts ih =>
      simp only [List.map_cons, fetchById, List.find?] at *
      rw [retireOne_template_id]
      cases hq : (t.template_id == qid) with
      | true => rfl
      | false => exact ih

/-- Claim C6: round-trip under retirement — retiring a template version never
deletes a version, fetching any template id after the retirement returns the
same body as before, and every id resolvable before stays resolvable, so
historical ModelCallRecords keep resolving. -/
theorem c6_retire_round_trip (s : TemplateStore) (id now qid : Nat) :
    (retire s id now).length = s.length ∧
    (fetchById (retire s id now) qid).map (fun t => t.body)
      = (fetchById s qid).map (fun t => t.body) ∧
    (fetchById (retire s id now) qid).isSome = (fetchById s qid).isSome := by
  refine ⟨?_, ?_, ?_⟩
  · rw [retire_eq_map]
    exact List.length_map s (retireOne id now)
  · rw [fetchById_retire]
    cases fetchById s qid with
    | none => rfl
    | some t => simp [retireOne_body]
  · rw [fetchById_retire]
    cases fetchById s qid <;> rfl

/-- Claim C4: the Template Selector is deterministic — two calls made against
identical Template Store, Learning Recorder and FeedbackRecord histories with
the same (task_type, tier, document_profile) return the same template_id, and
a selection call never mutates the state it reads (so two successive calls in
particular agree). -/
theorem c4_selector_deterministic (st1 st2 : CoreState) (tt : TaskType)
    (tier : Nat) (profile : DocumentProfile)
    (hs : st1.store = st2.store)
    (hl : st1.learningLog = st2.learningLog)
    (hf : st1.feedback = st2.feedback) :
    ((selectCall st1 tt tier profile).1).template_id
      = ((selectCall st2 tt tier profile).1).template_id ∧
    (selectCall st1 tt tier profile).2 = st1 := by
  constructor
  · simp only [selectCall, hs, hl, hf]
  · rfl

/-- Witness for C4 at a concrete store, learning log and feedback history. -/
theorem c4_witness :
    ((selectCall sampleCore .contract_risk 1 sampleProfile).1).template_id
      = ((selectCall sampleCore .contract_risk 1 sampleProfile).1).template_id ∧
    (selectCall sampleCore .contract_risk 1 sampleProfile).2 = sampleCore :=
  c4_selector_deterministic sampleCore sampleCore .contract_risk 1
    sampleProfile rfl rfl rfl

/-- Claim C1: whenever the tier-1 model call fails (status error or timeout),
the pipeline run terminates with outcome failed, records no tier-2 call, and
emits no tier-2 ModelCallRecord at all. -/
theorem c1_tier1_failure_fails_pipeline (env : Env) (task : AnalysisTask)
    (log : List LearningEntry) (h : clientFails env.tier1 = true) :
    (runPipeline env task log).1.outcome = .failed ∧
    (runPipeline env task log).1.tier2_record = none ∧
    ∀ c ∈ (runPipeline env task log).2.1, c.tier ≠ 2 := by
  rcases env with ⟨b1, b2, tmo, store, fb⟩
  cases b1 with
  | mock => simp [clientFails] at h
  | real r =>
      cases r with
      | ok resp lat => simp [clientFails] at h
      | timeout =>
          refine ⟨rfl, rfl, ?_⟩
          simp +decide [runPipeline, invoke]
      | error reason =>
          refine ⟨rfl, rfl, ?_⟩
          simp +decide [runPipeline, invoke]

/-- Witness for C1 at a concrete failing tier-1 environment. -/
theorem c1_witness :
    (runPipeline failEnv sampleTask []).1.outcome = .failed ∧
    (runPipeline failEnv sampleTask []).1.tier2_record = none ∧
    ∀ c ∈ (runPipeline failEnv sampleTask []).2.1, c.tier ≠ 2 :=
  c1_tier1_failure_fails_pipeline failEnv sampleTask [] rfl

/-- Claim C2: when tier 1 succeeds and tier 2 fails, the pipeline does not
fail — the outcome is partial_tier2_failure and the merged output is the
structured extraction of the tier-1 record's output, unrefined by tier 2. -/
theorem c2_tier2_failure_partial (env : Env) (task : AnalysisTask)
    (log : List LearningEntry) (h1 : clientFails env.tier1 = false)
    (h2 : clientFails env.tier2 = true) :
    (runPipeline env task log).1.outcome = .partial_tier2_failure ∧
    (runPipeline env task log).1.merged_output
      = extractOutput task
          ((runPipeline env task log).1.tier1_record.response_text)
          ((runPipeline env task log).1.tier1_record.status == .mocked) := by
  rcases env with ⟨b1, b2, tmo, store, fb⟩
  cases b1 with
  | real r =>
      cases r with
      | timeout => simp [clientFails] at h1
      | error reason => simp [clientFails] at h1
      | ok resp lat =>
          cases b2 with
          | mock => simp [clientFails] at h2
          | real r2 =>
              cases r2 with
              | ok resp2 lat2 => simp [clientFails] at h2
              | timeout => exact ⟨rfl, rfl⟩
              | error reason2 => exact ⟨rfl, rfl⟩
  | mock =>
      cases b2 with
      | mock => simp [clientFails] at h2
      | real r2 =>
          cases r2 with
          | ok resp2 lat2 => simp [clientFails] at h2
          | timeout => exact ⟨rfl, rfl⟩
          | error reason2 => exact ⟨rfl, rfl⟩

/-- Witness for C2 at a concrete environment where tier 1 answers and tier 2
times out. -/
theorem c2_witness :
    (runPipeline partialEnv sampleTask []).1.outcome
      = .partial_tier2_failure ∧
    (runPipeline partialEnv sampleTask []).1.merged_output
      = extractOutput sampleTask
          ((runPipeline partialEnv sampleTask []).1.tier1_record.response_text)
          ((runPipeline partialEnv sampleTask []).1.tier1_record.status
            == .mocked) :=
  c2_tier2_failure_partial partialEnv sampleTask [] rfl rfl

/-- Claim C3: every pipeline run writes exactly one Learning Recorder entry,
at finalization — the returned log is the input log extended by exactly the
entry for this run's PipelineResult and ModelCallRecords, in every outcome. -/
theorem c3_exactly_one_learning_entry (env : Env) (task : AnalysisTask)
    (log : List LearningEntry) :
    (runPipeline env task log).2.2
      = log ++ [{ result := (runPipeline env task log).1
                  records := (runPipeline env task log).2.1 }] := by
  rcases env with ⟨b1, b2, tmo, store, fb⟩
  cases b1 with
  | mock =>
      cases b2 with
      | mock => rfl
      | real r2 => cases r2 <;> rfl
  | real r =>
      cases r with
      | ok resp lat =>
          cases b2 with
          | mock => rfl
          | real r2 => cases r2 <;> rfl
      | timeout => rfl
      | error reason => rfl

/-- Extraction with the mocked tag set marks every produced entry mocked,
whatever the task type. -/
theorem outputAllMocked_extract_true (task : AnalysisTask) (text : String) :
    outputAllMocked (extractOutput task text true) = true := by
  cases task with
  | mk tid tt itext profile =>
      cases tt <;>
        simp [extractOutput, outputAllMocked, List.all_eq_true, List.mem_map]

/-- For a contract_risk task, extraction yields the clause-keyed structured
shape: one entry per detected clause, keyed 1 … clauseCount in order, with
the given mocked tag. -/
theorem extract_contract_shape (task : AnalysisTask) (text : String)
    (mocked : Bool) (htt : task.task_type = .contract_risk) :
    ∃ entries, extractOutput task text mocked = .risks entries ∧
      entries.length = task.document_profile.clauseCount ∧
      entries.map (fun e => e.clause_id)
        = (List.range task.document_profile.clauseCount).map
            (fun i => i + 1) ∧
      ∀ e ∈ entries, e.mocked = mocked := by
  cases task with
  | mk tid tt itext profile =>
      cases htt
      refine ⟨_, rfl, ?_, ?_, ?_⟩
      · simp [List.length_map, List.length_range]
      · simp [List.map_map]
      · intro e he
        simp [List.mem_map] at he
        obtain ⟨i, _, hi⟩ := he
        rw [← hi]

/-- Claim C5: when both tiers run in simulated mode, the pipeline outcome is
full_mock and every produced entry of the merged output carries the mocked
tag; for a contract_risk task the merged output is exactly one mocked entry
per detected clause, keyed in order. -/
theorem c5_full_mock_tagged (env : Env) (task : AnalysisTask)
    (log : List LearningEntry) (h1 : env.tier1 = .mock)
    (h2 : env.tier2 = .mock) :
    (runPipeline env task log).1.outcome = .full_mock ∧
    outputAllMocked (runPipeline env task log).1.merged_output = true ∧
    (task.task_type = .contract_risk →
      ∃ entries,
        (runPipeline env task log).1.merged_output = .risks entries ∧
        entries.length = task.document_profile.clauseCount ∧
        entries.map (fun e => e.clause_id)
          = (List.range task.document_profile.clauseCount).map
              (fun i => i + 1) ∧
        ∀ e ∈ entries, e.mocked = true) := by
  rcases env with ⟨b1, b2, tmo, store, fb⟩
  simp only at h1 h2
  subst h1
  subst h2
  refine ⟨rfl, ?_, ?_⟩
  · exact outputAllMocked_extract_true task (mockResponse 2)
  · intro htt
    exact extract_contract_shape task (mockResponse 2) true htt

/-- Witness for C5: a 10-clause contract_risk task with both tiers mocked
yields full_mock and exactly 10 clause-keyed mocked entries. -/
theorem c5_witness :
    (runPipeline mockEnv sampleTask []).1.outcome = .full_mock ∧
    outputAllMocked (runPipeline mockEnv sampleTask []).1.merged_output
      = true ∧
    (sampleTask.task_type = .contract_risk →
      ∃ entries,
        (runPipeline mockEnv sampleTask []).1.merged_output
          = .risks entries ∧
        entries.length = 10 ∧
        entries.map (fun e => e.clause_id)
          = [1, 2, 3, 4, 5, 6, 7, 8, 9, 10] ∧
        ∀ e ∈ entries, e.mocked = true) :=
  c5_full_mock_tagged mockEnv sampleTask [] rfl rfl

/-- Claim C7: for every contract_risk analysis whose mandatory tier-1 call
does not fail, the merged output is the task-type-specific structured shape —
an ordered list of clause-keyed risk-finding entries — and the presentation
layer (`loadClauseContent`) renders any risk list in the order given, each
rendered item carrying the risk's severity tag and its recommendation. -/
theorem c7_structured_output_rendered (env : Env) (task : AnalysisTask)
    (log : List LearningEntry) (htt : task.task_type = .contract_risk)
    (h1 : clientFails env.tier1 = false) :
    (∃ entries,
       (runPipeline env task log).1.merged_output = .risks entries ∧
       entries.map (fun e => e.clause_id)
         = (List.range task.document_profile.clauseCount).map
             (fun i => i + 1)) ∧
    (∀ risks : List Risk,
       (renderRiskList risks).map (fun item => item.severity_label)
         = risks.map (fun r => r.severity) ∧
       (renderRiskList risks).map (fun item => item.recommendation_text)
         = risks.map (fun r => r.recommendation)) := by
  constructor
  · rcases env with ⟨b1, b2, tmo, store, fb⟩
    cases b1 with
    | real r =>
        cases r with
        | timeout => simp [clientFails] at h1
        | error reason => simp [clientFails] at h1
        | ok resp lat =>
            cases b2 with
            | mock =>
                obtain ⟨entries, he, _, hkeys, _⟩ :=
                  extract_contract_shape task (mockResponse 2) true htt
                exact ⟨entries, he, hkeys⟩
            | real r2 =>
                cases r2 with
                | ok resp2 lat2 =>
                    obtain ⟨entries, he, _, hkeys, _⟩ :=
                      extract_contract_shape task resp2 false htt
                    exact ⟨entries, he, hkeys⟩
                | timeout =>
                    obtain ⟨entries, he, _, hkeys, _⟩ :=
                      extract_contract_shape task resp false htt
                    exact ⟨entries, he, hkeys⟩
                | error reason2 =>
                    obtain ⟨entries, he, _, hkeys, _⟩ :=
                      extract_contract_shape task resp false htt
                    exact ⟨entries, he, hkeys⟩
    | mock =>
        cases b2 with
        | mock =>
            obtain ⟨entries, he, _, hkeys, _⟩ :=
              extract_contract_shape task (mockResponse 2) true htt
            exact ⟨entries, he, hkeys⟩
        | real r2 =>
            cases r2 with
            | ok resp2 lat2 =>
                obtain ⟨entries, he, _, hkeys, _⟩ :=
                  extract_contract_shape task resp2 false htt
                exact ⟨entries, he, hkeys⟩
            | timeout =>
                obtain ⟨entries, he, _, hkeys, _⟩ :=
                  extract_contract_shape task (mockResponse 1) true htt
                exact ⟨entries, he, hkeys⟩
            | error reason2 =>
                obtain ⟨entries, he, _, hkeys, _⟩ :=
                  extract_contract_shape task (mockResponse 1) true htt
                exact ⟨entries, he, hkeys⟩
  · intro risks
    constructor
    · simp [renderRiskList, renderRiskItem, List.map_map]
    · simp [renderRiskList, renderRiskItem, List.map_map]

/-- Witness for C7 at a live environment and the 10-clause sample task. -/
theorem c7_witness :
    (∃ entries,
       (runPipeline liveEnv sampleTask []).1.merged_output = .risks entries ∧
       entries.map (fun e => e.clause_id)
         = [1, 2, 3, 4, 5, 6, 7, 8, 9, 10]) ∧
    (∀ risks : List Risk,
       (renderRiskList risks).map (fun item => item.severity_label)
         = risks.map (fun r => r.severity) ∧
       (renderRiskList risks).map (fun item => item.recommendation_text)
         = risks.map (fun r => r.recommendation)) :=
  c7_structured_output_rendered liveEnv sampleTask [] rfl rfl

/-- Claim C8: the rating widget built by `generateStars` has exactly five
stars carrying data-values "1" … "5" in order, star `i` is filled exactly
when `i ≤ count`, clicking the star with value `v` (1 ≤ v ≤ 5) re-fills
exactly the stars with value ≤ v — the resulting widget equals
`generateStars v` — and every data-value the widget can deliver is one of
1 … 5, so no rating outside 1–5 can be produced through it. -/
theorem c8_rating_widget (count v : Nat) (hv1 : 1 ≤ v) (hv5 : v ≤ 5) :
    ((generateStars count).map (fun s => s.dataValue)
      = ["1", "2", "3", "4", "5"]) ∧
    (∀ k, (hk : k < (generateStars count).length) →
      ((generateStars count).get ⟨k, hk⟩).symbol
        = (if k + 1 ≤ count then '★' else '☆')) ∧
    (clickStar (generateStars count) (toString v) = generateStars v) ∧
    (∀ s ∈ generateStars count,
      ∃ n, s.dataValue = toString n ∧ 1 ≤ n ∧ n ≤ 5) := by
  refine ⟨rfl, ?_, ?_, ?_⟩
  · intro k hk
    have hk5 : k < 5 := by simpa [generateStars] using hk
    interval_cases k <;> rfl
  · interval_cases v <;> rfl
  · intro s hs
    simp only [generateStars, List.mem_map, List.mem_range] at hs
    obtain ⟨j, hj, hsj⟩ := hs
    refine ⟨j + 1, ?_, Nat.le_add_left 1 j, by omega⟩
    rw [← hsj]

/-- Witness for C8: clicking the fourth star of a widget initialised at
count = 2. -/
theorem c8_witness :
    ((generateStars 2).map (fun s => s.dataValue)
      = ["1", "2", "3", "4", "5"]) ∧
    (∀ k, (hk : k < (generateStars 2).length) →
      ((generateStars 2).get ⟨k, hk⟩).symbol
        = (if k + 1 ≤ 2 then '★' else '☆')) ∧
    (clickStar (generateStars 2) (toString 4) = generateStars 4) ∧
    (∀ s ∈ generateStars 2,
      ∃ n, s.dataValue = toString n ∧ 1 ≤ n ∧ n ≤ 5) :=
  c8_rating_widget 2 4 (by decide) (by decide)

/-- Claim C9: when the `#file-info` element is present and the selected
file's MIME type is neither PDF nor DOCX, `updateFileInfo` only appends the
error notification and returns — the element's content and hidden class are
untouched — and, over all states and files, the element changes only for a
file whose type is in `allowedTypes`. -/
theorem c9_reject_unsupported_type (st : PageState) (file : FileDesc)
    (el : FileInfoElement) (hEl : st.fileInfo = some el)
    (hType : allowedTypes.contains file.mimeType = false) :
    updateFileInfo st file
      = pushNotification st "僅支援PDF和DOCX格式文件" "error" ∧
    (updateFileInfo st file).fileInfo = st.fileInfo ∧
    (updateFileInfo st file).notifications
      = st.notifications ++ [("僅支援PDF和DOCX格式文件", "error")] ∧
    (∀ st2 file2, (updateFileInfo st2 file2).fileInfo ≠ st2.fileInfo →
      allowedTypes.contains file2.mimeType = true) := by
  have hmem : file.mimeType ∉ allowedTypes := by simpa using hType
  have hmain : updateFileInfo st file
      = pushNotification st "僅支援PDF和DOCX格式文件" "error" := by
    simp [updateFileInfo, hEl, hmem]
  refine ⟨hmain, ?_, ?_, ?_⟩
  · rw [hmain]
    rfl
  · rw [hmain]
    rfl
  · intro st2 file2 hne
    rcases st2 with ⟨fi2, notifs2⟩
    cases fi2 with
    | none => exact absurd rfl hne
    | some el2 =>
        cases hc : allowedTypes.contains file2.mimeType with
        | true => rfl
        | false =>
            exfalso
            apply hne
            have hmem2 : file2.mimeType ∉ allowedTypes := by simpa using hc
            simp [updateFileInfo, hmem2, pushNotification]

/-- Witness for C9: a plain-text file against a visible file-info element. -/
theorem c9_witness :
    updateFileInfo
        { fileInfo := some { content := .original "<span></span>", hidden := true }
          notifications := [] }
        { name := "notes.txt", size := 2048, mimeType := "text/plain" }
      = pushNotification
          { fileInfo := some { content := .original "<span></span>", hidden := true }
            notifications := [] }
          "僅支援PDF和DOCX格式文件" "error" ∧
    (updateFileInfo
        { fileInfo := some { content := .original "<span></span>", hidden := true }
          notifications := [] }
        { name := "notes.txt", size := 2048, mimeType := "text/plain" }).fileInfo
      = PageState.fileInfo
          { fileInfo := some { content := .original "<span></span>", hidden := true }
            notifications := [] } ∧
    (updateFileInfo
        { fileInfo := some { content := .original "<span></span>", hidden := true }
          notifications := [] }
        { name := "notes.txt", size := 2048, mimeType := "text/plain" }).notifications
      = [] ++ [("僅支援PDF和DOCX格式文件", "error")] ∧
    (∀ st2 file2, (updateFileInfo st2 file2).fileInfo ≠ st2.fileInfo →
      allowedTypes.contains file2.mimeType = true) :=
  c9_reject_unsupported_type
    { fileInfo := some { content := .original "<span></span>", hidden := true }
      notifications := [] }
    { name := "notes.txt", size := 2048, mimeType := "text/plain" }
    { content := .original "<span></span>", hidden := true } rfl (by decide)

/-- Claim C10: `showNotification` schedules the auto-close sequence 5000 ms
after creation, and its delayed removal branch is guarded by the containment
check: the guarded step never throws, and for a notification already removed
(e.g. via its close button) it removes nothing. -/
theorem c10_autoclose_guarded (st : NotifState) (nid : Nat)
    (children : List Nat) (h : children.contains nid = false) :
    ({ delayMs := 5000, notifId := nid, kind := .autoClose } : NotifTimer)
      ∈ (showNotificationStep st nid).timers ∧
    autoCloseRemoval children nid = .ok children ∧
    (∀ cs : List Nat, ∃ r, autoCloseRemoval cs nid = Except.ok r) := by
  have hmem : nid ∉ children := by simpa using h
  refine ⟨?_, ?_, ?_⟩
  · simp [showNotificationStep]
  · simp [autoCloseRemoval, hmem]
  · intro cs
    by_cases hc : nid ∈ cs
    · exact ⟨cs.erase nid, by simp [autoCloseRemoval, removeChild, hc]⟩
    · exact ⟨cs, by simp [autoCloseRemoval, hc]⟩

/-- Witness for C10: a freshly created notification whose node was already
removed from an empty container. -/
theorem c10_witness :
    ({ delayMs := 5000, notifId := 3, kind := .autoClose } : NotifTimer)
      ∈ (showNotificationStep { children := [], timers := [] } 3).timers ∧
    autoCloseRemoval [] 3 = .ok [] ∧
    (∀ cs : List Nat, ∃ r, autoCloseRemoval cs 3 = Except.ok r) :=
  c10_autoclose_guarded { children := [], timers := [] } 3 [] (by decide)

end JurisNexus
